import Mathlib

/-!
Shallow embedding of the task-management backend (Express + Mongoose).

The embedded code lives in two source files:
* the Mongoose task model (`models/Task.js`): schema defaults, the deadline
  validator, the pre-save middleware that maintains `completedAt`, and the
  static query/stat helpers;
* the task router (`routes/tasks.js`): list (filtering + pagination), get,
  create, update, delete, stats overview, and bulk status update.

Modelling conventions:
* MongoDB documents become a `Task` structure; the collection is a
  `List Task` (`Store`).  Object ids and user ids are `Nat`.
* `Date` values are epoch milliseconds as `Int`.  Each request handler in the
  source calls `new Date()` several times within one request; the embedding
  passes a single `now : Int` for the request, which is the standard
  idealisation of those closely spaced reads.
* `express-validator` chains become boolean `valid...` checks performed
  before the handler body, exactly as the routes return 400 before touching
  the store.  String trimming is not modelled; length bounds are on the
  given strings.
* Fallible route handlers return `Except ApiError ...`.
* Mongoose runs document middleware (`pre('save')`) only on `save`/`create`.
  Query updates — `findByIdAndUpdate`, `updateMany` — do not run it.  The
  embedding therefore applies `preSave` in `createTask` (which uses
  `Task.create`) and applies the raw body in `updateTask` (which uses
  `findByIdAndUpdate`), mirroring the actual execution paths.
-/

namespace TaskApp

/-- Task status enum: `['Pending', 'In Progress', 'Completed']`. -/
inductive Status where
  | pending
  | inProgress
  | completed
deriving DecidableEq

/-- Task priority enum: `['Low', 'Medium', 'High']`. -/
inductive Priority where
  | low
  | medium
  | high
deriving DecidableEq

/-- One task document, after the fields of `taskSchema`.
`deadline`, `createdAt` and the optional `completedAt` are epoch ms. -/
structure Task where
  id : Nat
  user : Nat
  title : String
  description : String
  status : Status
  deadline : Int
  priority : Priority
  tags : List String
  completedAt : Option Int
  createdAt : Int
deriving DecidableEq

/-- The tasks collection. -/
abbrev Store := List Task

/-- Errors surfaced by the routes: `ErrorResponse(message, statusCode)` from
the error-handler middleware, or the express-validator 400 rejection. -/
inductive ApiError where
  | errorResponse (message : String) (statusCode : Nat)
  | validationFailed
deriving DecidableEq

/-- The `taskSchema.pre('save')` middleware: when the status path is
modified, stamp `completedAt` on transition to Completed (if unset) and
clear it on any non-Completed status. -/
def preSave (now : Int) (statusModified : Bool) (t : Task) : Task :=
  if statusModified then
    if t.status = Status.completed ∧ t.completedAt = none then
      { t with completedAt := some now }
    else if t.status ≠ Status.completed then
      { t with completedAt := none }
    else t
  else t

/-- Request body of `POST /api/tasks`. -/
structure CreateBody where
  title : String
  description : String
  deadline : Int
  priority : Option Priority
  status : Option Status
  tags : Option (List String)
deriving DecidableEq

/-- express-validator chain of `POST /api/tasks`: title 1..200 chars,
description 1..1000 chars, each tag at most 50 chars (enum and date
well-formedness are carried by the types). -/
def validCreateBody (b : CreateBody) : Bool :=
  decide (1 ≤ b.title.length) && decide (b.title.length ≤ 200) &&
  decide (1 ≤ b.description.length) && decide (b.description.length ≤ 1000) &&
  (b.tags.getD []).all (fun tag => decide (tag.length ≤ 50))

/-- `POST /api/tasks`: validate, reject a non-future deadline with
`ErrorResponse('Deadline must be in the future', 400)`, then `Task.create`
with schema defaults (status Pending, priority Medium, tags `[]`,
`completedAt` null) and the save middleware.  On a new document every set
path (defaults included) counts as modified, so `preSave` runs with
`statusModified = true`. -/
def createTask (now : Int) (uid : Nat) (newId : Nat) (b : CreateBody)
    (store : Store) : Except ApiError (Task × Store) :=
  if validCreateBody b then
    if b.deadline ≤ now then
      Except.error (ApiError.errorResponse "Deadline must be in the future" 400)
    else
      let t : Task :=
        ⟨newId, uid, b.title, b.description, b.status.getD Status.pending,
          b.deadline, b.priority.getD Priority.medium, b.tags.getD [],
          none, now⟩
      let t2 := preSave now true t
      Except.ok (t2, store ++ [t2])
  else Except.error ApiError.validationFailed

/-- Request body of `PUT /api/tasks/:id`.  Every field is optional; the
route passes `req.body` to `findByIdAndUpdate` wholesale, so a client may
also write `completedAt` directly (the validator chain does not whitelist
fields). -/
structure UpdateBody where
  title : Option String
  description : Option String
  deadline : Option Int
  priority : Option Priority
  status : Option Status
  tags : Option (List String)
  completedAt : Option (Option Int)
deriving DecidableEq

/-- express-validator chain of `PUT /api/tasks/:id` (all optional). -/
def validUpdateBody (b : UpdateBody) : Bool :=
  (match b.title with
   | some s => decide (1 ≤ s.length) && decide (s.length ≤ 200)
   | none => true) &&
  (match b.description with
   | some s => decide (1 ≤ s.length) && decide (s.length ≤ 1000)
   | none => true) &&
  (match b.tags with
   | some ts => ts.all (fun tag => decide (tag.length ≤ 50))
   | none => true)

/-- `findByIdAndUpdate` field application: each supplied path overwrites the
stored one.  No document middleware runs here (Mongoose runs `pre('save')`
only on `save`/`create`, not on query updates). -/
def applyUpdateBody (b : UpdateBody) (t : Task) : Task :=
  ⟨t.id, t.user,
    b.title.getD t.title,
    b.description.getD t.description,
    b.status.getD t.status,
    b.deadline.getD t.deadline,
    b.priority.getD t.priority,
    b.tags.getD t.tags,
    b.completedAt.getD t.completedAt,
    t.createdAt⟩

/-- `PUT /api/tasks/:id`: validate, look up the task scoped to the caller
(404 if absent), reject a supplied non-future deadline, then
`findByIdAndUpdate(id, req.body, { new, runValidators })` and return the
updated document. -/
def updateTask (now : Int) (uid : Nat) (tid : Nat) (b : UpdateBody)
    (store : Store) : Except ApiError (Task × Store) :=
  if validUpdateBody b then
    match store.find? (fun t => decide (t.id = tid) && decide (t.user = uid)) with
    | none => Except.error (ApiError.errorResponse "Task not found" 404)
    | some _ =>
      let badDeadline : Bool :=
        match b.deadline with
        | some d => decide (d ≤ now)
        | none => false
      if badDeadline then
        Except.error (ApiError.errorResponse "Deadline must be in the future" 400)
      else
        let store2 := store.map (fun t => if decide (t.id = tid) then applyUpdateBody b t else t)
        match store2.find? (fun t => decide (t.id = tid)) with
        | none => Except.error (ApiError.errorResponse "Task not found" 404)
        | some t2 => Except.ok (t2, store2)
  else Except.error ApiError.validationFailed

/-- `GET /api/tasks/:id`: `findOne({ _id, user })`, 404 when absent. -/
def getTask (uid : Nat) (tid : Nat) (store : Store) : Except ApiError Task :=
  match store.find? (fun t => decide (t.id = tid) && decide (t.user = uid)) with
  | none => Except.error (ApiError.errorResponse "Task not found" 404)
  | some t => Except.ok t

/-- `DELETE /api/tasks/:id`: ownership lookup (404 when absent), then
`findByIdAndDelete` removes the document with that id. -/
def deleteTask (uid : Nat) (tid : Nat) (store : Store) : Except ApiError Store :=
  match store.find? (fun t => decide (t.id = tid) && decide (t.user = uid)) with
  | none => Except.error (ApiError.errorResponse "Task not found" 404)
  | some _ => Except.ok (store.filter (fun t => !(decide (t.id = tid))))

/-- Query string of `GET /api/tasks`.  `overdue` is true exactly when the
request carried `overdue=true`. -/
structure ListQuery where
  status : Option Status
  priority : Option Priority
  overdue : Bool
  page : Option Nat
  limit : Option Nat
deriving DecidableEq

/-- express-validator chain of `GET /api/tasks`: page a positive integer,
limit between 1 and 100 (enums carried by the types). -/
def validListQuery (q : ListQuery) : Bool :=
  (match q.page with
   | some p => decide (1 ≤ p)
   | none => true) &&
  (match q.limit with
   | some l => decide (1 ≤ l) && decide (l ≤ 100)
   | none => true)

/-- A status condition stored under the `status` key of the Mongo query
object: either an equality test or `{ $ne: 'Completed' }`. -/
inductive StatusCond where
  | eqStatus (s : Status)
  | neCompleted
deriving DecidableEq

/-- The Mongo query object the route builds: keys `user`, `status`,
`priority`, `deadline` (`$lt`). -/
structure TaskQuery where
  user : Nat
  statusCond : Option StatusCond
  priority : Option Priority
  deadlineLt : Option Int
deriving DecidableEq

/-- Query construction of `GET /api/tasks` (lines 568-574): start from
`{ user }`, add the status and priority filters when supplied, then — when
`overdue` is set — assign `deadline: { $lt: now }` and assign
`status: { $ne: 'Completed' }`, overwriting any status filter already
placed under that key. -/
def buildTaskQuery (now : Int) (uid : Nat) (q : ListQuery) : TaskQuery :=
  let tq : TaskQuery := ⟨uid, none, none, none⟩
  let tq := match q.status with
    | some s => { tq with statusCond := some (StatusCond.eqStatus s) }
    | none => tq
  let tq := match q.priority with
    | some p => { tq with priority := some p }
    | none => tq
  if q.overdue then
    { tq with deadlineLt := some now, statusCond := some StatusCond.neCompleted }
  else tq

/-- Whether a document matches the Mongo query object. -/
def taskMatches (tq : TaskQuery) (t : Task) : Bool :=
  decide (t.user = tq.user) &&
  (match tq.statusCond with
   | none => true
   | some (StatusCond.eqStatus s) => decide (t.status = s)
   | some StatusCond.neCompleted => decide (t.status ≠ Status.completed)) &&
  (match tq.priority with
   | none => true
   | some p => decide (t.priority = p)) &&
  (match tq.deadlineLt with
   | none => true
   | some d => decide (t.deadline < d))

/-- `.sort({ deadline: 1, createdAt: -1 })`: deadline ascending, creation
time descending on ties. -/
def sortLe (t1 t2 : Task) : Bool :=
  decide (t1.deadline < t2.deadline) ||
  (decide (t1.deadline = t2.deadline) && decide (t2.createdAt ≤ t1.createdAt))

/-- Insert a task into a list sorted by `sortLe`. -/
def insertSorted (t : Task) : List Task → List Task
  | [] => [t]
  | h :: rest => if sortLe t h then t :: h :: rest else h :: insertSorted t rest

/-- Stable sort by `sortLe` (the store-side `.sort(...)`). -/
def sortTasks : List Task → List Task
  | [] => []
  | h :: rest => insertSorted h (sortTasks rest)

/-- Effective page: `parseInt(req.query.page, 10) || 1`. -/
def pageOf (q : ListQuery) : Nat := q.page.getD 1

/-- Effective limit: `parseInt(req.query.limit, 10) || 25`. -/
def limitOf (q : ListQuery) : Nat := q.limit.getD 25

/-- `startIndex = (page - 1) * limit`. -/
def startIndexOf (q : ListQuery) : Nat := (pageOf q - 1) * limitOf q

/-- The documents matching the built query. -/
def filteredTasks (now : Int) (uid : Nat) (q : ListQuery) (store : Store) : Store :=
  store.filter (taskMatches (buildTaskQuery now uid q))

/-- `Task.find(query).skip(startIndex).limit(limit).sort(...)`. -/
def pageItems (now : Int) (uid : Nat) (q : ListQuery) (store : Store) : Store :=
  ((sortTasks (filteredTasks now uid q store)).drop (startIndexOf q)).take (limitOf q)

/-- An entry of the `pagination` response object. -/
structure PageRef where
  page : Nat
  limit : Nat
deriving DecidableEq

/-- `pagination.next` exists iff `startIndex + limit < total`. -/
def nextPage (q : ListQuery) (total : Nat) : Option PageRef :=
  if startIndexOf q + limitOf q < total then some ⟨pageOf q + 1, limitOf q⟩ else none

/-- `pagination.prev` exists iff `startIndex > 0`. -/
def prevPage (q : ListQuery) : Option PageRef :=
  if 0 < startIndexOf q then some ⟨pageOf q - 1, limitOf q⟩ else none

/-- Response of `GET /api/tasks`: `count`, `total`, `pagination`, `tasks`. -/
structure ListResult where
  count : Nat
  total : Nat
  next : Option PageRef
  prev : Option PageRef
  tasks : List Task
deriving DecidableEq

/-- `GET /api/tasks`: validate, count the matching documents, fetch the
requested page sorted by deadline/createdAt, and attach pagination. -/
def listTasks (now : Int) (uid : Nat) (q : ListQuery) (store : Store) :
    Except ApiError ListResult :=
  if validListQuery q then
    Except.ok
      ⟨(pageItems now uid q store).length,
        (filteredTasks now uid q store).length,
        nextPage q (filteredTasks now uid q store).length,
        prevPage q,
        pageItems now uid q store⟩
  else Except.error ApiError.validationFailed

/-- The ownership verification query of `PATCH /api/tasks/bulk/status`:
`Task.find({ _id: { $in: taskIds }, user })`. -/
def ownedTasks (uid : Nat) (taskIds : List Nat) (store : Store) : Store :=
  store.filter (fun t => decide (t.id ∈ taskIds) && decide (t.user = uid))

/-- The `updateMany` write of the bulk route: on a matching document set
`status`, and set `completedAt` to now when the target status is Completed
and to null otherwise. -/
def bulkApply (now : Int) (uid : Nat) (taskIds : List Nat) (status : Status)
    (t : Task) : Task :=
  if decide (t.id ∈ taskIds) && decide (t.user = uid) then
    { t with status := status,
             completedAt := if status = Status.completed then some now else none }
  else t

/-- A document counts towards `modifiedCount` when it matches the
`updateMany` filter and the write actually changes it. -/
def bulkChanged (now : Int) (uid : Nat) (taskIds : List Nat) (status : Status)
    (t : Task) : Bool :=
  decide (t.id ∈ taskIds) && decide (t.user = uid) &&
  decide (bulkApply now uid taskIds status t ≠ t)

/-- `PATCH /api/tasks/bulk/status`: validate (`taskIds` a non-empty array),
verify every supplied id resolves to a document owned by the caller by
comparing the number of matching documents with `taskIds.length` (404 on
mismatch), then `updateMany` and report `modifiedCount`. -/
def bulkUpdateStatus (now : Int) (uid : Nat) (taskIds : List Nat)
    (status : Status) (store : Store) : Except ApiError (Nat × Store) :=
  if taskIds.isEmpty then Except.error ApiError.validationFailed
  else if (ownedTasks uid taskIds store).length ≠ taskIds.length then
    Except.error (ApiError.errorResponse "Some tasks not found or do not belong to user" 404)
  else
    Except.ok
      ((store.filter (bulkChanged now uid taskIds status)).length,
        store.map (bulkApply now uid taskIds status))

/-- One day in ms.  The source computes the ±7/±30 day bounds with
`Date.setDate`, i.e. calendar-day arithmetic; the embedding uses fixed
86 400 000 ms days, the idealisation of that arithmetic. -/
def dayMs : Int := 86400000

/-- Number of the caller's tasks created within the last 30 days
(`createdAt: { $gte: thirtyDaysAgo }`). -/
def createdLast30 (now : Int) (uid : Nat) (store : Store) : Nat :=
  (store.filter (fun t => decide (t.user = uid) &&
    decide (now - 30 * dayMs ≤ t.createdAt))).length

/-- Number of the caller's Completed tasks with `completedAt` within the
last 30 days. -/
def completedLast30 (now : Int) (uid : Nat) (store : Store) : Nat :=
  (store.filter (fun t => decide (t.user = uid) &&
    decide (t.status = Status.completed) &&
    (match t.completedAt with
     | some c => decide (now - 30 * dayMs ≤ c)
     | none => false))).length

/-- `Math.round((completed / total) * 100)` on non-negative operands:
`⌊100 * c / n + 1 / 2⌋`, i.e. `(200 * c + n) / (2 * n)` in `Nat` division. -/
def jsRound100 (c n : Nat) : Nat := (200 * c + n) / (2 * n)

/-- Response of `GET /api/tasks/stats/overview`: the per-status counts from
`getUserTaskStats`, the overdue and due-this-week counts, and the 30-day
completion rate. -/
structure TaskStats where
  total : Nat
  pending : Nat
  inProgress : Nat
  completed : Nat
  overdue : Nat
  dueThisWeek : Nat
  completionRate : Nat
deriving DecidableEq

/-- `GET /api/tasks/stats/overview`. -/
def getStats (now : Int) (uid : Nat) (store : Store) : TaskStats :=
  let mine := store.filter (fun t => decide (t.user = uid))
  ⟨mine.length,
    (mine.filter (fun t => decide (t.status = Status.pending))).length,
    (mine.filter (fun t => decide (t.status = Status.inProgress))).length,
    (mine.filter (fun t => decide (t.status = Status.completed))).length,
    (mine.filter (fun t => decide (t.deadline < now) &&
      decide (t.status ≠ Status.completed))).length,
    (mine.filter (fun t => decide (now ≤ t.deadline) &&
      decide (t.deadline ≤ now + 7 * dayMs) &&
      decide (t.status ≠ Status.completed))).length,
    if 0 < createdLast30 now uid store then
      jsRound100 (completedLast30 now uid store) (createdLast30 now uid store)
    else 0⟩

/-! Concrete stores, bodies and queries used to evaluate the routes at
specific inputs. -/

/-- A fresh Pending task of user 7 (id 1, deadline 100, created at 0). -/
def pendingTask : Task :=
  ⟨1, 7, "t", "d", Status.pending, 100, Priority.medium, [], none, 0⟩

/-- Update body carrying only `status: 'Completed'`. -/
def completeBody : UpdateBody :=
  ⟨none, none, none, none, some Status.completed, none, none⟩

/-- A Completed task of user 7 (id 2) whose `completedAt` is 40. -/
def doneTask : Task :=
  ⟨2, 7, "t", "d", Status.completed, 100, Priority.medium, [], some 40, 0⟩

/-- Update body carrying only `status: 'Pending'`. -/
def reopenBody : UpdateBody :=
  ⟨none, none, none, none, some Status.pending, none, none⟩

/-- An In Progress task of user 7 whose deadline (5) is already past at
request time 10. -/
def lateTask : Task :=
  ⟨1, 7, "a", "d", Status.inProgress, 5, Priority.medium, [], none, 0⟩

/-- List query `?status=Pending&overdue=true`. -/
def pendingOverdueQuery : ListQuery :=
  ⟨some Status.pending, none, true, none, none⟩

/-- List query `?overdue=true`. -/
def overdueQuery : ListQuery :=
  ⟨none, none, true, none, none⟩

/-- The list response for `?status=Pending&overdue=true` on the one-task
store `[lateTask]`. -/
def pendingOverdueResult : ListResult :=
  ((listTasks 10 7 pendingOverdueQuery [lateTask]).toOption).getD ⟨0, 0, none, none, []⟩

/-- An overdue Pending task of user 7 (deadline 5, request time 10). -/
def latePendingTask : Task :=
  ⟨1, 7, "a", "d", Status.pending, 5, Priority.medium, [], none, 0⟩

/-- The list response for `?overdue=true` on the one-task store. -/
def overdueResult : ListResult :=
  ((listTasks 10 7 overdueQuery [latePendingTask]).toOption).getD ⟨0, 0, none, none, []⟩

/-- The i-th of 57 tasks of user 7, deadlines ascending. -/
def numberedTask (i : Nat) : Task :=
  ⟨i, 7, "t", "d", Status.pending, 1000 + Int.ofNat i, Priority.medium, [], none, Int.ofNat i⟩

/-- A store of 57 tasks of user 7. -/
def fiftySevenStore : Store := (List.range 57).map numberedTask

/-- List query with no parameters (page and limit defaulted). -/
def defaultListQuery : ListQuery := ⟨none, none, false, none, none⟩

/-- List query `?page=3`. -/
def pageThreeQuery : ListQuery := ⟨none, none, false, some 3, none⟩

/-- The list response for the defaulted query on the 57-task store. -/
def pageOneResult : ListResult :=
  ((listTasks 0 7 defaultListQuery fiftySevenStore).toOption).getD ⟨0, 0, none, none, []⟩

/-- Create body with title, description and deadline 60 only. -/
def plainCreateBody : CreateBody := ⟨"t", "d", 60, none, none, none⟩

/-- The task produced by creating `plainCreateBody` at time 50. -/
def createdTask : Task :=
  ((createTask 50 7 9 plainCreateBody []).toOption.map Prod.fst).getD pendingTask

/-- A store holding one task of user 7 with id 3. -/
def singleTaskStore : Store :=
  [⟨3, 7, "t", "d", Status.pending, 100, Priority.medium, [], none, 0⟩]

/-- The store after deleting task 3 from `singleTaskStore`. -/
def afterDeleteStore : Store :=
  ((deleteTask 7 3 singleTaskStore).toOption).getD singleTaskStore

/-- A store holding one task of user 7 with id 1. -/
def ownedOneStore : Store :=
  [⟨1, 7, "t", "d", Status.pending, 100, Priority.medium, [], none, 0⟩]

/-- A store holding tasks 1 and 2 of user 7. -/
def ownedTwoStore : Store :=
  [⟨1, 7, "t", "d", Status.pending, 100, Priority.medium, [], none, 0⟩,
   ⟨2, 7, "t", "d", Status.inProgress, 100, Priority.medium, [], none, 0⟩]

/-- Aggregation request time for the statistics example. -/
def statsNow : Int := 2600000000

/-- The i-th statistics example task: tasks 0-3 are Completed with
`completedAt` inside the 30-day window, tasks 4-9 are Pending; all ten were
created inside the window. -/
def statsTask (i : Nat) : Task :=
  if i < 4 then
    ⟨i, 7, "t", "d", Status.completed, 9000000000, Priority.medium, [], some 20000000, 10000000⟩
  else
    ⟨i, 7, "t", "d", Status.pending, 9000000000, Priority.medium, [], none, 10000000⟩

/-- Ten tasks created in the last 30 days, four of them Completed in that
window. -/
def statsStore : Store := (List.range 10).map statsTask

/-! Helper lemmas about the query/filter engine. -/

theorem mem_insertSorted {a t : Task} {l : List Task} :
    a ∈ insertSorted t l ↔ a = t ∨ a ∈ l := by
  induction l with
  | nil => simp [insertSorted]
  | cons h rest ih =>
    unfold insertSorted
    by_cases hc : sortLe t h = true
    · rw [if_pos hc]
      simp [List.mem_cons]
    · rw [if_neg hc]
      simp only [List.mem_cons, ih]
      tauto

theorem mem_sortTasks {a : Task} {l : List Task} : a ∈ sortTasks l ↔ a ∈ l := by
  induction l with
  | nil => simp [sortTasks]
  | cons h rest ih => simp [sortTasks, mem_insertSorted, ih]

theorem listTasks_ok_elim {now : Int} {uid : Nat} {q : ListQuery} {store : Store}
    {r : ListResult} (h : listTasks now uid q store = Except.ok r) :
    r = ⟨(pageItems now uid q store).length,
          (filteredTasks now uid q store).length,
          nextPage q (filteredTasks now uid q store).length,
          prevPage q,
          pageItems now uid q store⟩ := by
  unfold listTasks at h
  by_cases hv : validListQuery q = true
  · rw [if_pos hv] at h
    exact (Except.ok.inj h).symm
  · rw [if_neg hv] at h
    exact Except.noConfusion h

theorem taskMatches_of_mem_pageItems {now : Int} {uid : Nat} {q : ListQuery}
    {store : Store} {t : Task} (ht : t ∈ pageItems now uid q store) :
    taskMatches (buildTaskQuery now uid q) t = true := by
  have h1 : t ∈ sortTasks (filteredTasks now uid q store) :=
    List.mem_of_mem_drop (List.mem_of_mem_take ht)
  exact (List.mem_filter.mp (mem_sortTasks.mp h1)).2

theorem buildTaskQuery_overdue (now : Int) (uid : Nat) {q : ListQuery}
    (h : q.overdue = true) :
    (buildTaskQuery now uid q).statusCond = some StatusCond.neCompleted ∧
    (buildTaskQuery now uid q).deadlineLt = some now := by
  unfold buildTaskQuery
  rw [h]
  cases q.status <;> cases q.priority <;> simp

theorem status_ne_completed_of_taskMatches {tq : TaskQuery} {t : Task}
    (hs : tq.statusCond = some StatusCond.neCompleted)
    (h : taskMatches tq t = true) : t.status ≠ Status.completed := by
  unfold taskMatches at h
  rw [hs] at h
  simp only [Bool.and_eq_true, decide_eq_true_eq] at h
  exact h.1.1.2

theorem deadline_lt_of_taskMatches {tq : TaskQuery} {t : Task} {d : Int}
    (hd : tq.deadlineLt = some d) (h : taskMatches tq t = true) :
    t.deadline < d := by
  unfold taskMatches at h
  rw [hd] at h
  simp only [Bool.and_eq_true, decide_eq_true_eq] at h
  exact h.2

/-! Claim theorems. -/

/-- C1: the invariant "completedAt is non-null iff status is Completed" is
violated at a state reachable through the public operations: updating a
fresh Pending task (completedAt null) to Completed through
`PUT /api/tasks/:id` returns a task whose status is Completed while
completedAt is still null, because `findByIdAndUpdate` does not run the
pre-save middleware that maintains the invariant. -/
theorem c1_update_breaks_completedAt_invariant :
    (updateTask 50 7 1 completeBody [pendingTask]).toOption.map
      (fun r => (r.1.status, r.1.completedAt,
        decide (r.1.completedAt ≠ none ↔ r.1.status = Status.completed))) =
      some (Status.completed, none, false) := rfl

/-- C2: updating the status of an owned task away from Completed through
`PUT /api/tasks/:id` does not clear completedAt to null as the claim
requires: the route updates via `findByIdAndUpdate`, which skips the
pre-save middleware, so the stale stamp (40) survives. -/
theorem c2_update_away_from_completed_keeps_stamp :
    (updateTask 50 7 2 reopenBody [doneTask]).toOption.map
      (fun r => (r.1.status, r.1.completedAt)) =
      some (Status.pending, some 40) := rfl

/-- C3 counterexample: with `status=Pending` and `overdue=true` both
supplied, the route returns a task whose status is In Progress, so the two
constraints are not conjoined: assigning the overdue condition overwrites
the `status` key of the query object. -/
theorem c3_conjoined_filters_counterexample :
    (listTasks 10 7 pendingOverdueQuery [lateTask]).toOption.map
      (fun r => (r.count, r.tasks.all (fun t => decide (t.status = Status.pending)))) =
      some (1, false) := rfl

/-- C3 amended: when both an explicit status filter and `overdue=true` are
supplied, the overdue condition replaces the status filter: every returned
task has a deadline before now and a status other than Completed, but need
not have the requested status. -/
theorem c3_overdue_overrides_status_filter (now : Int) (uid : Nat)
    (q : ListQuery) (store : Store) (r : ListResult) (s : Status)
    (_hst : q.status = some s) (hov : q.overdue = true)
    (h : listTasks now uid q store = Except.ok r) :
    ∀ t ∈ r.tasks, t.deadline < now ∧ t.status ≠ Status.completed := by
  intro t ht
  have hr := listTasks_ok_elim h
  subst hr
  have hm : taskMatches (buildTaskQuery now uid q) t = true :=
    taskMatches_of_mem_pageItems ht
  obtain ⟨hsc, hdl⟩ := buildTaskQuery_overdue now uid hov
  exact ⟨deadline_lt_of_taskMatches hdl hm,
         status_ne_completed_of_taskMatches hsc hm⟩

/-- C3 witness: the amended statement at the concrete counterexample
input. -/
theorem c3_overdue_overrides_status_filter_witness :
    pendingOverdueResult.tasks.all
      (fun t => decide (t.deadline < 10) && decide (t.status ≠ Status.completed)) = true := by
  rw [List.all_eq_true]
  intro t ht
  have h := c3_overdue_overrides_status_filter 10 7 pendingOverdueQuery [lateTask]
    pendingOverdueResult Status.pending rfl rfl (by rfl) t ht
  simp [h.1, h.2]

/-- C8: with `overdue=true`, no returned task has status Completed,
whatever the other filters are. -/
theorem c8_overdue_excludes_completed (now : Int) (uid : Nat) (q : ListQuery)
    (store : Store) (r : ListResult) (hov : q.overdue = true)
    (h : listTasks now uid q store = Except.ok r) :
    ∀ t ∈ r.tasks, t.status ≠ Status.completed := by
  intro t ht
  have hr := listTasks_ok_elim h
  subst hr
  have hm : taskMatches (buildTaskQuery now uid q) t = true :=
    taskMatches_of_mem_pageItems ht
  exact status_ne_completed_of_taskMatches (buildTaskQuery_overdue now uid hov).1 hm

/-- C8 witness: an overdue-filtered page that actually contains a task, on
which the theorem applies. -/
theorem c8_overdue_excludes_completed_witness :
    0 < overdueResult.tasks.length ∧
    overdueResult.tasks.all (fun t => decide (t.status ≠ Status.completed)) = true := by
  refine ⟨by decide, ?_⟩
  rw [List.all_eq_true]
  intro t ht
  have h := c8_overdue_excludes_completed 10 7 overdueQuery [latePendingTask]
    overdueResult rfl (by rfl) t ht
  simp [h]

/-- C7: pagination is 1-indexed with defaults page 1 and limit 25 and
offset `(page-1)*limit`; a next entry exists exactly when
`offset + limit < total` and a prev entry exactly when `offset > 0`; on 57
matching tasks with limit 25, page 1 returns 25 items with next `{2, 25}`
and no prev, and page 3 returns 7 items with no next and prev `{2, 25}`. -/
theorem c7_pagination :
    (∀ (now : Int) (uid : Nat) (q : ListQuery) (store : Store) (r : ListResult),
        listTasks now uid q store = Except.ok r →
        r.next = (if (q.page.getD 1 - 1) * q.limit.getD 25 + q.limit.getD 25 < r.total
                  then some ⟨q.page.getD 1 + 1, q.limit.getD 25⟩ else none) ∧
        r.prev = (if 0 < (q.page.getD 1 - 1) * q.limit.getD 25
                  then some ⟨q.page.getD 1 - 1, q.limit.getD 25⟩ else none)) ∧
    (listTasks 0 7 defaultListQuery fiftySevenStore).toOption.map
      (fun r => (r.count, r.next, r.prev)) = some (25, some ⟨2, 25⟩, none) ∧
    (listTasks 0 7 pageThreeQuery fiftySevenStore).toOption.map
      (fun r => (r.count, r.next, r.prev)) = some (7, none, some ⟨2, 25⟩) := by
  refine ⟨?_, rfl, rfl⟩
  intro now uid q store r h
  have hr := listTasks_ok_elim h
  subst hr
  exact ⟨rfl, rfl⟩

/-- C7 witness: the general pagination facts applied to the page-1 request
on the 57-task store. -/
theorem c7_pagination_witness :
    pageOneResult.next =
      (if (defaultListQuery.page.getD 1 - 1) * defaultListQuery.limit.getD 25 +
          defaultListQuery.limit.getD 25 < pageOneResult.total
       then some ⟨defaultListQuery.page.getD 1 + 1, defaultListQuery.limit.getD 25⟩
       else none) ∧
    pageOneResult.prev =
      (if 0 < (defaultListQuery.page.getD 1 - 1) * defaultListQuery.limit.getD 25
       then some ⟨defaultListQuery.page.getD 1 - 1, defaultListQuery.limit.getD 25⟩
       else none) :=
  c7_pagination.1 0 7 defaultListQuery fiftySevenStore pageOneResult (by rfl)

/-- C9: after a successful delete, a getTask by the same caller for the
same identifier answers NotFound. -/
theorem c9_delete_then_get_not_found (uid tid : Nat) (store s2 : Store)
    (h : deleteTask uid tid store = Except.ok s2) :
    getTask uid tid s2 = Except.error (ApiError.errorResponse "Task not found" 404) := by
  unfold deleteTask at h
  cases hf : store.find? (fun t => decide (t.id = tid) && decide (t.user = uid)) with
  | none =>
    rw [hf] at h
    exact Except.noConfusion h
  | some t0 =>
    rw [hf] at h
    have hs2 : s2 = store.filter (fun t => !(decide (t.id = tid))) :=
      (Except.ok.inj h).symm
    subst hs2
    have hnone : (store.filter (fun t => !(decide (t.id = tid)))).find?
        (fun t => decide (t.id = tid) && decide (t.user = uid)) = none := by
      rw [List.find?_eq_none]
      intro x hx
      have hxid := (List.mem_filter.mp hx).2
      simp only [Bool.not_eq_eq_eq_not, Bool.not_true, decide_eq_false_iff_not] at hxid
      simp [hxid]
    unfold getTask
    rw [hnone]

/-- C9 witness: delete task 3 from the one-task store, then get it. -/
theorem c9_delete_then_get_not_found_witness :
    getTask 7 3 afterDeleteStore =
      Except.error (ApiError.errorResponse "Task not found" 404) :=
  c9_delete_then_get_not_found 7 3 singleTaskStore afterDeleteStore (by rfl)

/-- C5: with a valid title/description, creation fails with the
deadline-in-the-future validation error whenever the deadline is not
strictly in the future, and otherwise succeeds; when status and priority
are not supplied the created task is Pending, Medium, with completedAt
null. -/
theorem c5_create_deadline_policy (now : Int) (uid newId : Nat)
    (b : CreateBody) (store : Store) (hvb : validCreateBody b = true) :
    (b.deadline ≤ now →
      createTask now uid newId b store =
        Except.error (ApiError.errorResponse "Deadline must be in the future" 400)) ∧
    (now < b.deadline → b.status = none → b.priority = none →
      ∃ t, createTask now uid newId b store = Except.ok (t, store ++ [t]) ∧
        t.status = Status.pending ∧ t.priority = Priority.medium ∧
        t.completedAt = none) := by
  constructor
  · intro hle
    unfold createTask
    rw [if_pos hvb, if_pos hle]
  · intro hlt hst hpr
    unfold createTask
    rw [if_pos hvb, if_neg (not_le.mpr hlt)]
    refine ⟨_, rfl, ?_, ?_, ?_⟩
    all_goals simp [preSave, hst, hpr]

/-- C5 witness: the success branch at a concrete create request (now 50,
deadline 60, no status/priority supplied). -/
theorem c5_create_deadline_policy_witness :
    createdTask.status = Status.pending ∧
    createdTask.priority = Priority.medium ∧
    createdTask.completedAt = none := by
  obtain ⟨t, ht, h1, h2, h3⟩ :=
    (c5_create_deadline_policy 50 7 9 plainCreateBody [] rfl).2 (by decide) rfl rfl
  have hte : createdTask = t := by
    unfold createdTask
    rw [ht]
    rfl
  rw [hte]
  exact ⟨h1, h2, h3⟩

/-! Counting lemmas for the bulk ownership check. -/

theorem ids_nodup_ownedTasks (uid : Nat) (ids : List Nat) (store : Store)
    (h : (store.map Task.id).Nodup) :
    ((ownedTasks uid ids store).map Task.id).Nodup :=
  h.sublist ((List.filter_sublist store).map Task.id)

theorem mem_ids_ownedTasks {uid : Nat} {ids : List Nat} {store : Store} {i : Nat} :
    i ∈ (ownedTasks uid ids store).map Task.id ↔
      ∃ t ∈ store, t.id = i ∧ t.user = uid ∧ i ∈ ids := by
  simp only [ownedTasks, List.mem_map, List.mem_filter, Bool.and_eq_true,
    decide_eq_true_eq]
  constructor
  · rintro ⟨t, ⟨htmem, htids, htuid⟩, rfl⟩
    exact ⟨t, htmem, rfl, htuid, htids⟩
  · rintro ⟨t, htmem, rfl, htuid, htids⟩
    exact ⟨t, ⟨htmem, htids, htuid⟩, rfl⟩

theorem ownedTasks_length_le_dedup (uid : Nat) (ids : List Nat) (store : Store)
    (h : (store.map Task.id).Nodup) :
    (ownedTasks uid ids store).length ≤ ids.dedup.length := by
  have hn := ids_nodup_ownedTasks uid ids store h
  have hsubset : ((ownedTasks uid ids store).map Task.id).toFinset ⊆ ids.toFinset := by
    intro x hx
    rw [List.mem_toFinset] at hx ⊢
    obtain ⟨t, _, _, _, hxids⟩ := mem_ids_ownedTasks.mp hx
    exact hxids
  calc (ownedTasks uid ids store).length
      = ((ownedTasks uid ids store).map Task.id).length := by rw [List.length_map]
    _ = ((ownedTasks uid ids store).map Task.id).toFinset.card :=
        (List.toFinset_card_of_nodup hn).symm
    _ ≤ ids.toFinset.card := Finset.card_le_card hsubset
    _ = ids.dedup.length := List.card_toFinset ids

theorem dedup_length_lt_of_not_nodup (ids : List Nat) (h : ¬ ids.Nodup) :
    ids.dedup.length < ids.length := by
  have hsub := List.dedup_sublist ids
  rcases Nat.lt_or_ge ids.dedup.length ids.length with hlt | hge
  · exact hlt
  · exact absurd
      (List.dedup_eq_self.mp (hsub.eq_of_length (Nat.le_antisymm hsub.length_le hge))) h

theorem ownedTasks_length_lt_of_dup (uid : Nat) (ids : List Nat) (store : Store)
    (hn : (store.map Task.id).Nodup) (hdup : ¬ ids.Nodup) :
    (ownedTasks uid ids store).length < ids.length :=
  lt_of_le_of_lt (ownedTasks_length_le_dedup uid ids store hn)
    (dedup_length_lt_of_not_nodup ids hdup)

theorem ownedTasks_length_lt_of_unresolved (uid : Nat) (ids : List Nat)
    (store : Store) (hn : (store.map Task.id).Nodup) (i0 : Nat)
    (hi0 : i0 ∈ ids) (hmiss : ∀ t ∈ store, ¬(t.id = i0 ∧ t.user = uid)) :
    (ownedTasks uid ids store).length < ids.length := by
  have hnd := ids_nodup_ownedTasks uid ids store hn
  have hsubset : ((ownedTasks uid ids store).map Task.id).toFinset ⊆ ids.toFinset := by
    intro x hx
    rw [List.mem_toFinset] at hx ⊢
    obtain ⟨t, _, _, _, hxids⟩ := mem_ids_ownedTasks.mp hx
    exact hxids
  have hi0not : i0 ∉ (ownedTasks uid ids store).map Task.id := by
    intro hx
    obtain ⟨t, htmem, hti, htu, _⟩ := mem_ids_ownedTasks.mp hx
    exact hmiss t htmem ⟨hti, htu⟩
  have hss : ((ownedTasks uid ids store).map Task.id).toFinset ⊂ ids.toFinset := by
    rw [Finset.ssubset_iff_of_subset hsubset]
    exact ⟨i0, List.mem_toFinset.mpr hi0, fun hc => hi0not (List.mem_toFinset.mp hc)⟩
  calc (ownedTasks uid ids store).length
      = ((ownedTasks uid ids store).map Task.id).length := by rw [List.length_map]
    _ = ((ownedTasks uid ids store).map Task.id).toFinset.card :=
        (List.toFinset_card_of_nodup hnd).symm
    _ < ids.toFinset.card := Finset.card_lt_card hss
    _ ≤ ids.length := List.toFinset_card_le ids

theorem ownedTasks_length_eq_of_all_resolve (uid : Nat) (ids : List Nat)
    (store : Store) (hn : (store.map Task.id).Nodup) (hnd : ids.Nodup)
    (hall : ∀ i ∈ ids, ∃ t ∈ store, t.id = i ∧ t.user = uid) :
    (ownedTasks uid ids store).length = ids.length := by
  have hnodup := ids_nodup_ownedTasks uid ids store hn
  have hiff : ∀ a, a ∈ (ownedTasks uid ids store).map Task.id ↔ a ∈ ids := by
    intro a
    constructor
    · intro hx
      obtain ⟨t, _, _, _, hxids⟩ := mem_ids_ownedTasks.mp hx
      exact hxids
    · intro ha
      obtain ⟨t, htmem, hti, htu⟩ := hall a ha
      exact mem_ids_ownedTasks.mpr ⟨t, htmem, hti, htu, ha⟩
  have hperm := (List.perm_ext_iff_of_nodup hnodup hnd).mpr hiff
  have hlen := hperm.length_eq
  rwa [List.length_map] at hlen

theorem bulkApply_id (now : Int) (uid : Nat) (ids : List Nat) (status : Status)
    (t : Task) : (bulkApply now uid ids status t).id = t.id := by
  unfold bulkApply
  split <;> rfl

/-- C10: a `taskIds` array containing the same owned identifier twice is
rejected with the 404 ownership error and modifies nothing, because the
route compares the number of distinct matching documents with the length of
the duplicate-containing array. -/
theorem c10_bulk_duplicate_ids_rejected (now : Int) (uid : Nat)
    (taskIds : List Nat) (status : Status) (store : Store)
    (hn : (store.map Task.id).Nodup) (hdup : ¬ taskIds.Nodup)
    (hall : ∀ i ∈ taskIds, ∃ t ∈ store, t.id = i ∧ t.user = uid) :
    bulkUpdateStatus now uid taskIds status store =
      Except.error (ApiError.errorResponse "Some tasks not found or do not belong to user" 404) := by
  have hne : taskIds.isEmpty = false := by
    cases taskIds with
    | nil => exact absurd List.nodup_nil hdup
    | cons a l => rfl
  have hlt := ownedTasks_length_lt_of_dup uid taskIds store hn hdup
  unfold bulkUpdateStatus
  rw [hne]
  simp only [Bool.false_eq_true, if_false]
  rw [if_pos (Nat.ne_of_lt hlt)]

/-- C10 witness: `taskIds = [1, 1]` on a store where task 1 is owned by the
caller. -/
theorem c10_bulk_duplicate_ids_rejected_witness :
    bulkUpdateStatus 50 7 [1, 1] Status.completed ownedOneStore =
      Except.error (ApiError.errorResponse "Some tasks not found or do not belong to user" 404) :=
  c10_bulk_duplicate_ids_rejected 50 7 [1, 1] Status.completed ownedOneStore
    (by decide) (by decide) (by decide)

/-- C4 counterexample: with `taskIds = [1, 1]`, every supplied identifier
resolves to a task owned by the caller, yet the operation fails with the
404 ownership error instead of applying the update, so the claim as stated
is false. -/
theorem c4_counterexample_duplicates_rejected :
    ([1, 1] : List Nat).all
      (fun i => ownedOneStore.any
        (fun t => decide (t.id = i) && decide (t.user = 7))) = true ∧
    bulkUpdateStatus 50 7 [1, 1] Status.completed ownedOneStore =
      Except.error (ApiError.errorResponse "Some tasks not found or do not belong to user" 404) :=
  ⟨rfl, rfl⟩

/-- C4 (amended): for a duplicate-free identifier list, bulk status update
is all-or-nothing: if any identifier does not resolve to a task owned by
the caller, the request fails with the 404 ownership error (nothing is
written); if all resolve, the route answers with the store rewritten by the
`updateMany` write — every targeted record carrying the new status with
completedAt stamped to now (target Completed) or cleared to null — and the
count of records actually changed. -/
theorem c4_bulk_all_or_nothing (now : Int) (uid : Nat) (taskIds : List Nat)
    (status : Status) (store : Store) (hne0 : taskIds ≠ [])
    (hn : (store.map Task.id).Nodup) (hnd : taskIds.Nodup) :
    ((∃ i ∈ taskIds, ∀ t ∈ store, ¬(t.id = i ∧ t.user = uid)) →
      bulkUpdateStatus now uid taskIds status store =
        Except.error (ApiError.errorResponse "Some tasks not found or do not belong to user" 404)) ∧
    ((∀ i ∈ taskIds, ∃ t ∈ store, t.id = i ∧ t.user = uid) →
      bulkUpdateStatus now uid taskIds status store =
        Except.ok ((store.filter (bulkChanged now uid taskIds status)).length,
          store.map (bulkApply now uid taskIds status)) ∧
      ∀ t2 ∈ store.map (bulkApply now uid taskIds status), t2.id ∈ taskIds →
        t2.status = status ∧
        t2.completedAt = (if status = Status.completed then some now else none)) := by
  have hne : taskIds.isEmpty = false := by
    cases taskIds with
    | nil => exact absurd rfl hne0
    | cons a l => rfl
  constructor
  · rintro ⟨i0, hi0, hmiss⟩
    have hlt := ownedTasks_length_lt_of_unresolved uid taskIds store hn i0 hi0 hmiss
    unfold bulkUpdateStatus
    rw [hne]
    simp only [Bool.false_eq_true, if_false]
    rw [if_pos (Nat.ne_of_lt hlt)]
  · intro hall
    have heq := ownedTasks_length_eq_of_all_resolve uid taskIds store hn hnd hall
    constructor
    · unfold bulkUpdateStatus
      rw [hne]
      simp only [Bool.false_eq_true, if_false]
      rw [if_neg (fun hcon => hcon heq)]
    · intro t2 ht2 hid
      obtain ⟨t, htmem, rfl⟩ := List.mem_map.mp ht2
      have hidt : t.id ∈ taskIds := by rwa [bulkApply_id] at hid
      obtain ⟨u, humem, hui, huu⟩ := hall t.id hidt
      have hut : u = t := List.inj_on_of_nodup_map hn humem htmem hui
      rw [hut] at huu
      have hcond : (decide (t.id ∈ taskIds) && decide (t.user = uid)) = true := by
        simp [hidt, huu]
      unfold bulkApply
      rw [if_pos hcond]
      exact ⟨rfl, rfl⟩

/-- C4 witness: updating tasks 1 and 2 (both owned) to Completed: the route
answers with the rewritten store and every targeted record is Completed
with completedAt stamped to 50. -/
theorem c4_bulk_all_or_nothing_witness :
    bulkUpdateStatus 50 7 [1, 2] Status.completed ownedTwoStore =
      Except.ok ((ownedTwoStore.filter (bulkChanged 50 7 [1, 2] Status.completed)).length,
        ownedTwoStore.map (bulkApply 50 7 [1, 2] Status.completed)) ∧
    (ownedTwoStore.map (bulkApply 50 7 [1, 2] Status.completed)).all
      (fun t2 => !(decide (t2.id ∈ ([1, 2] : List Nat))) ||
        (decide (t2.status = Status.completed) && decide (t2.completedAt = some 50))) = true := by
  have h := (c4_bulk_all_or_nothing 50 7 [1, 2] Status.completed ownedTwoStore
    (by decide) (by decide) (by decide)).2 (by decide)
  refine ⟨h.1, ?_⟩
  rw [List.all_eq_true]
  intro t2 ht2
  by_cases hid : t2.id ∈ ([1, 2] : List Nat)
  · have hpost := h.2 t2 ht2 hid
    simp [hid, hpost.1, hpost.2]
  · simp [hid]

/-- C6: the 30-day completion rate equals
`round(100 * completedInLast30Days / createdInLast30Days)`, is 0 when no
task was created in the window, and is 40 for 10 tasks created in the last
30 days of which 4 are Completed with completedAt in that window. -/
theorem c6_completion_rate :
    (∀ (now : Int) (uid : Nat) (store : Store),
        (getStats now uid store).completionRate =
          if createdLast30 now uid store = 0 then 0
          else jsRound100 (completedLast30 now uid store)
            (createdLast30 now uid store)) ∧
    createdLast30 statsNow 7 statsStore = 10 ∧
    completedLast30 statsNow 7 statsStore = 4 ∧
    (getStats statsNow 7 statsStore).completionRate = 40 := by
  refine ⟨?_, rfl, rfl, rfl⟩
  intro now uid store
  simp only [getStats]
  by_cases h : createdLast30 now uid store = 0
  · simp [h]
  · simp [h, Nat.pos_of_ne_zero h]

end TaskApp
